import Mathlib

/-!
# FILDOS storage allowance and persistence calculation engine

Shallow embedding of the storage metrics engine of the FILDOS repository
(`src/utils/calculateStorageMetrics.ts`) and of the remediation branch
selection of the storage manager component (`StorageManager` /
`ActionSection` / `LockupIncreaseAction` / `RateIncreaseAction`).

Modelling conventions:
* JavaScript `bigint` values are modelled as `Nat` (the data model of the
  spec states all snapshot values are non-negative integers in the smallest
  token unit); differences that may be negative are taken in `Int`.
* JavaScript `number` values produced by `Number(x) / Number(y)` are
  modelled as exact extended rationals (`JSNum`): a finite rational, plus
  the IEEE special values `+Infinity`, `-Infinity` and `NaN` that
  JavaScript division by zero produces.  Floating-point rounding is not
  modelled; every claim below involves values that are exact.
* The epoch constants `TIME_CONSTANTS.EPOCHS_PER_DAY` and
  `TIME_CONSTANTS.EPOCHS_PER_MONTH` come from the external synapse SDK and
  are passed as parameters (`epochsPerDay`, `epochsPerMonth`).
* The external asynchronous snapshot fetch is outside this embedding: the
  engine is a pure function of the fetched `PandoraBalanceData` snapshot.
-/

namespace FILDOS

/-- Extended rational modelling a JavaScript `number` that arises as a
quotient of exact integer-valued operands: a finite value, positive or
negative infinity, or `NaN`. -/
inductive JSNum where
  | fin (q : ℚ)
  | posInf
  | negInf
  | nan
deriving DecidableEq, Repr

/-- JavaScript division `a / b` on numbers with exact operands:
finite quotient when `b ≠ 0`; `±Infinity` for a nonzero numerator over
zero, `NaN` for `0 / 0`. -/
def jsDiv (a b : ℚ) : JSNum :=
  if b ≠ 0 then .fin (a / b)
  else if 0 < a then .posInf
  else if a < 0 then .negInf
  else .nan

/-- JavaScript comparison `x >= n` between a number `x` and a `bigint`
threshold `n`: mathematical comparison on finite values, `+Infinity`
exceeds every threshold, `-Infinity` and `NaN` compare false. -/
def JSNum.jsGe (x : JSNum) (n : ℤ) : Bool :=
  match x with
  | .fin q => decide ((n : ℚ) ≤ q)
  | .posInf => true
  | .negInf => false
  | .nan => false

/-- The balance snapshot returned by the external
`checkAllowanceForStorage` collaborator (`PandoraBalanceData` plus the
`costs.perEpoch` field read by the engine).  All fields are non-negative
token amounts (`bigint` in the source). -/
structure PandoraBalanceData where
  currentRateAllowance : ℕ
  currentRateUsed : ℕ
  currentLockupAllowance : ℕ
  currentLockupUsed : ℕ
  rateAllowanceNeeded : ℕ
  lockupAllowanceNeeded : ℕ
  depositAmountNeeded : ℕ
  /-- `pandoraBalance.costs.perEpoch` -/
  costsPerEpoch : ℕ
deriving DecidableEq, Repr

/-- `StorageCalculationResult`: the record returned by
`calculateStorageMetrics`. -/
structure StorageCalculationResult where
  rateNeeded : ℕ
  rateUsed : ℕ
  currentStorageBytes : ℕ
  currentStorageGB : ℚ
  totalLockupNeeded : ℕ
  depositNeeded : ℕ
  persistenceDaysLeft : JSNum
  persistenceDaysLeftAtCurrentRate : JSNum
  isRateSufficient : Bool
  isLockupSufficient : Bool
  isSufficient : Bool
  currentRateAllowanceGB : ℚ
  currentLockupAllowance : ℕ
deriving DecidableEq, Repr

/-- `SIZE_CONSTANTS.GiB` of the synapse SDK: bytes per GiB. -/
def GiB : ℕ := 2 ^ 30

/-- `SIZE_CONSTANTS.TiB` of the synapse SDK: bytes per TiB. -/
def TiB : ℕ := 2 ^ 40

/-- `STORAGE_CONSTANTS.PRICE_PER_TB_PER_MONTH`: 2 USDFC in wei. -/
def PRICE_PER_TB_PER_MONTH : ℕ := 2 * 10 ^ 18

/-- `STORAGE_CONSTANTS.PRICE_PER_TB_PER_MONTH_CDN`: 3 USDFC in wei. -/
def PRICE_PER_TB_PER_MONTH_CDN : ℕ := 3 * 10 ^ 18

/-- `getPricePerTBPerMonth`: price tier selected by the CDN flag. -/
def getPricePerTBPerMonth (withCDN : Bool) : ℕ :=
  if withCDN then PRICE_PER_TB_PER_MONTH_CDN else PRICE_PER_TB_PER_MONTH

/-- `calculateRateAllowanceGB`: storage capacity in GB sustainable by a
given rate allowance.  `bigint` division truncates; on the non-negative
operands here this is floor division, i.e. `Nat` division. -/
def calculateRateAllowanceGB (withCDN : Bool) (epochsPerMonth : ℕ)
    (rateAllowance : ℕ) : ℚ :=
  let monthlyRate := rateAllowance * epochsPerMonth
  let bytesThatCanBeStored := monthlyRate * TiB / getPricePerTBPerMonth withCDN
  (bytesThatCanBeStored : ℚ) / (GiB : ℚ)

/-- `calculateCurrentStorageUsage`: proportional estimate of currently
provisioned bytes and GB.  The source wraps the arithmetic in a
`try`/`catch` that logs and keeps the zero estimate; `bigint` arithmetic
on these operands cannot fault, so the embedding is total. -/
def calculateCurrentStorageUsage (pandoraBalance : PandoraBalanceData)
    (storageCapacity : ℕ) : ℕ × ℚ :=
  if 0 < pandoraBalance.currentRateUsed ∧ 0 < pandoraBalance.rateAllowanceNeeded then
    let currentStorageBytes :=
      pandoraBalance.currentRateUsed * storageCapacity /
        pandoraBalance.rateAllowanceNeeded
    (currentStorageBytes, (currentStorageBytes : ℚ) / (GiB : ℚ))
  else
    (0, 0)

/-- The per-day lockup consumption `E × r` (the `lockupPerDay` local of
`calculateStorageMetrics`). -/
def lockupPerDay (epochsPerDay rate : ℕ) : ℕ := epochsPerDay * rate

/-- `calculateStorageMetrics`: the engine entry point, as a pure function
of the fetched snapshot and the configuration.  Mirrors the source
line by line after the snapshot fetch. -/
def calculateStorageMetrics (pandoraBalance : PandoraBalanceData)
    (epochsPerDay epochsPerMonth : ℕ) (withCDN : Bool)
    (storageCapacity : ℕ) (minDaysThreshold : ℕ) : StorageCalculationResult :=
  let rateNeeded := pandoraBalance.costsPerEpoch
  let lockupPerDayVal := lockupPerDay epochsPerDay rateNeeded
  let lockupPerDayAtCurrentRate := epochsPerDay * pandoraBalance.currentRateUsed
  let currentLockupRemaining : ℤ :=
    (pandoraBalance.currentLockupAllowance : ℤ) -
      (pandoraBalance.currentLockupUsed : ℤ)
  let persistenceDaysLeft :=
    jsDiv (currentLockupRemaining : ℚ) (lockupPerDayVal : ℚ)
  let persistenceDaysLeftAtCurrentRate :=
    if 0 < lockupPerDayAtCurrentRate then
      jsDiv (currentLockupRemaining : ℚ) (lockupPerDayAtCurrentRate : ℚ)
    else if 0 < currentLockupRemaining then JSNum.posInf
    else JSNum.fin 0
  let usage := calculateCurrentStorageUsage pandoraBalance storageCapacity
  let isRateSufficient : Bool :=
    decide (rateNeeded ≤ pandoraBalance.currentRateAllowance)
  let isLockupSufficient : Bool :=
    persistenceDaysLeft.jsGe (minDaysThreshold : ℤ)
  let isSufficient := isRateSufficient && isLockupSufficient
  { rateNeeded := rateNeeded
    rateUsed := pandoraBalance.currentRateUsed
    currentStorageBytes := usage.1
    currentStorageGB := usage.2
    totalLockupNeeded := pandoraBalance.lockupAllowanceNeeded
    depositNeeded := pandoraBalance.depositAmountNeeded
    persistenceDaysLeft := persistenceDaysLeft
    persistenceDaysLeftAtCurrentRate := persistenceDaysLeftAtCurrentRate
    isRateSufficient := isRateSufficient
    isLockupSufficient := isLockupSufficient
    isSufficient := isSufficient
    currentRateAllowanceGB :=
      calculateRateAllowanceGB withCDN epochsPerMonth
        pandoraBalance.currentRateAllowance
    currentLockupAllowance := pandoraBalance.currentLockupAllowance }

/-! ## Storage manager component (remediation branch selection)

Embedding of the `ActionSection`, `LockupIncreaseAction` and
`RateIncreaseAction` components of the storage manager.  Only the
decision logic is modelled: which card renders and, when a payment button
is rendered, the `(lockupAllowance, epochRateAllowance, depositAmount)`
triple its click handler submits to the payment collaborator.
-/

/-- The action parameters submitted to the transaction-submission
collaborator (`onPayment`). -/
structure PaymentParams where
  lockupAllowance : ℕ
  epochRateAllowance : ℕ
  depositAmount : ℕ
deriving DecidableEq, Repr

/-- The fields of the `useBalances` data that `ActionSection` and its
children read. -/
structure BalancesUI where
  isSufficient : Bool
  isRateSufficient : Bool
  isLockupSufficient : Bool
  filBalance : ℕ
  usdfcBalance : ℕ
  totalLockupNeeded : ℕ
  depositNeeded : ℕ
  rateNeeded : ℕ
  currentLockupAllowance : ℕ
deriving DecidableEq, Repr

/-- Modelled from the spec: the `useBalances` hook (not under the given
sources) packages the `CalculationResult` fields for the presentation
layer together with the wallet balances; each result field is passed
through unchanged. -/
def toBalancesUI (res : StorageCalculationResult)
    (filBalance usdfcBalance : ℕ) : BalancesUI :=
  { isSufficient := res.isSufficient
    isRateSufficient := res.isRateSufficient
    isLockupSufficient := res.isLockupSufficient
    filBalance := filBalance
    usdfcBalance := usdfcBalance
    totalLockupNeeded := res.totalLockupNeeded
    depositNeeded := res.depositNeeded
    rateNeeded := res.rateNeeded
    currentLockupAllowance := res.currentLockupAllowance }

/-- What `ActionSection` renders (the loading / missing-balances early
return is outside the data model). In the `remediation` case the three
slots are the three independently guarded JSX conditionals, in source
order: the lockup-increase card, the rate-increase card, and the
both-insufficient card; `none` means the conditional (or a null guard
inside the child component) rendered nothing. -/
inductive ActionRender where
  | sufficientCard
  | tokensRequired (needFil needUsdfc : Bool)
  | remediation (lockup rate both : Option PaymentParams)
deriving DecidableEq, Repr

/-- `LockupIncreaseAction`: null when any prop is falsy (`bigint` zero),
otherwise a card whose button submits
`{lockupAllowance: totalLockupNeeded, epochRateAllowance: rateNeeded,
depositAmount: depositNeeded}`. -/
def LockupIncreaseAction (totalLockupNeeded depositNeeded rateNeeded : ℕ) :
    Option PaymentParams :=
  if totalLockupNeeded = 0 ∨ depositNeeded = 0 ∨ rateNeeded = 0 then none
  else some ⟨totalLockupNeeded, rateNeeded, depositNeeded⟩

/-- `RateIncreaseAction`: null when any prop is falsy, otherwise a card
whose button submits `{lockupAllowance: currentLockupAllowance,
epochRateAllowance: rateNeeded, depositAmount: BigInt(0)}`. -/
def RateIncreaseAction (currentLockupAllowance rateNeeded : ℕ) :
    Option PaymentParams :=
  if currentLockupAllowance = 0 ∨ rateNeeded = 0 then none
  else some ⟨currentLockupAllowance, rateNeeded, 0⟩

/-- `ActionSection`: the sufficient-balance card when `isSufficient`;
the token-required cards when either wallet balance is zero; otherwise
the three conditionally rendered remediation cards. -/
def ActionSection (b : BalancesUI) : ActionRender :=
  if b.isSufficient then .sufficientCard
  else if b.filBalance = 0 ∨ b.usdfcBalance = 0 then
    .tokensRequired (decide (b.filBalance = 0)) (decide (b.usdfcBalance = 0))
  else
    .remediation
      (if b.isRateSufficient && !b.isLockupSufficient then
        LockupIncreaseAction b.totalLockupNeeded b.depositNeeded b.rateNeeded
      else none)
      (if !b.isRateSufficient && b.isLockupSufficient then
        RateIncreaseAction b.currentLockupAllowance b.rateNeeded
      else none)
      (if !b.isRateSufficient && !b.isLockupSufficient then
        some ⟨b.totalLockupNeeded, b.rateNeeded, b.depositNeeded⟩
      else none)

/-! ## Concrete snapshots used by witnesses and counterexamples -/

/-- The scenario snapshot of the spec: lockup allowance 1000, lockup used
100, required rate 10; rate allowance equal to the required rate. -/
def pbScenario : PandoraBalanceData :=
  { currentRateAllowance := 10, currentRateUsed := 0
    currentLockupAllowance := 1000, currentLockupUsed := 100
    rateAllowanceNeeded := 10, lockupAllowanceNeeded := 500
    depositAmountNeeded := 400, costsPerEpoch := 10 }

/-- A snapshot with a zero required rate and positive remaining lockup. -/
def pbZeroRequiredRate : PandoraBalanceData :=
  { currentRateAllowance := 10, currentRateUsed := 0
    currentLockupAllowance := 1000, currentLockupUsed := 100
    rateAllowanceNeeded := 10, lockupAllowanceNeeded := 500
    depositAmountNeeded := 400, costsPerEpoch := 0 }

/-- A snapshot whose rate allowance (100) strictly exceeds the required
rate (50) while the lockup runway (900 / 250 = 3.6 days) is below the
10-day threshold. -/
def pbRateOk : PandoraBalanceData :=
  { currentRateAllowance := 100, currentRateUsed := 0
    currentLockupAllowance := 1000, currentLockupUsed := 100
    rateAllowanceNeeded := 50, lockupAllowanceNeeded := 500
    depositAmountNeeded := 400, costsPerEpoch := 50 }

/-! ## Claims -/

/-- Claim C1: for every snapshot and configuration, the overall
sufficiency flag equals the boolean conjunction of the rate-sufficiency
and lockup-sufficiency flags, over all combinations of the two flags. -/
theorem isSufficient_eq_and (pb : PandoraBalanceData)
    (epochsPerDay epochsPerMonth : ℕ) (withCDN : Bool) (cap m : ℕ) :
    (calculateStorageMetrics pb epochsPerDay epochsPerMonth withCDN cap m).isSufficient =
      ((calculateStorageMetrics pb epochsPerDay epochsPerMonth withCDN cap m).isRateSufficient &&
        (calculateStorageMetrics pb epochsPerDay epochsPerMonth withCDN cap m).isLockupSufficient) ∧
    ((calculateStorageMetrics pb epochsPerDay epochsPerMonth withCDN cap m).isSufficient = true ↔
      (calculateStorageMetrics pb epochsPerDay epochsPerMonth withCDN cap m).isRateSufficient = true ∧
        (calculateStorageMetrics pb epochsPerDay epochsPerMonth withCDN cap m).isLockupSufficient = true) := by
  constructor
  · rfl
  · simp [calculateStorageMetrics]

/-- Claim C2, counterexample: on a snapshot with a zero required rate and
positive remaining lockup, `persistenceDaysLeft` is the positive-infinity
value produced by the JavaScript division, not zero. -/
theorem persistenceDaysLeft_zero_rate_not_zero :
    pbZeroRequiredRate.costsPerEpoch = 0 ∧
    (calculateStorageMetrics pbZeroRequiredRate 5 86400 false 1000 10).persistenceDaysLeft =
      JSNum.posInf ∧
    (calculateStorageMetrics pbZeroRequiredRate 5 86400 false 1000 10).persistenceDaysLeft ≠
      JSNum.fin 0 := by
  refine ⟨rfl, ?_, ?_⟩ <;>
    simp [calculateStorageMetrics, lockupPerDay, jsDiv, pbZeroRequiredRate]

/-- Claim C2, amended: when the required rate is zero the computation is
total (nothing is raised), and `persistenceDaysLeft` is positive infinity
when the remaining lockup is strictly positive, negative infinity when it
is strictly negative, and NaN when it is zero. -/
theorem persistenceDaysLeft_zero_rate (pb : PandoraBalanceData)
    (epochsPerDay epochsPerMonth : ℕ) (withCDN : Bool) (cap m : ℕ)
    (h : pb.costsPerEpoch = 0) :
    (calculateStorageMetrics pb epochsPerDay epochsPerMonth withCDN cap m).persistenceDaysLeft =
      if 0 < (pb.currentLockupAllowance : ℤ) - (pb.currentLockupUsed : ℤ) then JSNum.posInf
      else if (pb.currentLockupAllowance : ℤ) - (pb.currentLockupUsed : ℤ) < 0 then JSNum.negInf
      else JSNum.nan := by
  simp [calculateStorageMetrics, lockupPerDay, jsDiv, h]

/-- Claim C2, witness for the amended theorem at the concrete
zero-required-rate snapshot. -/
theorem persistenceDaysLeft_zero_rate_witness :
    (calculateStorageMetrics pbZeroRequiredRate 5 86400 false 1000 10).persistenceDaysLeft =
      if 0 < (pbZeroRequiredRate.currentLockupAllowance : ℤ) -
          (pbZeroRequiredRate.currentLockupUsed : ℤ) then JSNum.posInf
      else if (pbZeroRequiredRate.currentLockupAllowance : ℤ) -
          (pbZeroRequiredRate.currentLockupUsed : ℤ) < 0 then JSNum.negInf
      else JSNum.nan :=
  persistenceDaysLeft_zero_rate pbZeroRequiredRate 5 86400 false 1000 10 rfl

/-- Claim C3: when the currently used rate is zero, the runway at the
current rate is the unbounded sentinel if the remaining lockup is
strictly positive, and exactly zero if the remaining lockup is zero or
negative. -/
theorem persistenceDaysLeftAtCurrentRate_zero_usage (pb : PandoraBalanceData)
    (epochsPerDay epochsPerMonth : ℕ) (withCDN : Bool) (cap m : ℕ)
    (h : pb.currentRateUsed = 0) :
    (0 < (pb.currentLockupAllowance : ℤ) - (pb.currentLockupUsed : ℤ) →
      (calculateStorageMetrics pb epochsPerDay epochsPerMonth withCDN cap
        m).persistenceDaysLeftAtCurrentRate = JSNum.posInf) ∧
    ((pb.currentLockupAllowance : ℤ) - (pb.currentLockupUsed : ℤ) ≤ 0 →
      (calculateStorageMetrics pb epochsPerDay epochsPerMonth withCDN cap
        m).persistenceDaysLeftAtCurrentRate = JSNum.fin 0) := by
  constructor <;> intro hrem <;>
    simp [calculateStorageMetrics, h] <;> omega

/-- Claim C3, witness: at a zero-usage snapshot with positive remaining
lockup the runway at the current rate is unbounded, and with the lockup
allowance fully used it is exactly zero. -/
theorem persistenceDaysLeftAtCurrentRate_zero_usage_witness :
    (calculateStorageMetrics pbScenario 5 86400 false 1000
      10).persistenceDaysLeftAtCurrentRate = JSNum.posInf ∧
    (calculateStorageMetrics
      { pbScenario with currentLockupUsed := 1000 } 5 86400 false 1000
      10).persistenceDaysLeftAtCurrentRate = JSNum.fin 0 :=
  ⟨(persistenceDaysLeftAtCurrentRate_zero_usage pbScenario 5 86400 false 1000 10
      rfl).1 (by norm_num [pbScenario]),
    (persistenceDaysLeftAtCurrentRate_zero_usage
      { pbScenario with currentLockupUsed := 1000 } 5 86400 false 1000 10
      rfl).2 (by norm_num [pbScenario])⟩

/-- Claim C4: for a strictly positive required rate (and a positive
epochs-per-day constant), `persistenceDaysLeft` is exactly the remaining
lockup divided by the per-day lockup consumption at the required rate. -/
theorem persistenceDaysLeft_formula (pb : PandoraBalanceData)
    (epochsPerDay epochsPerMonth : ℕ) (withCDN : Bool) (cap m : ℕ)
    (hE : 0 < epochsPerDay) (hr : 0 < pb.costsPerEpoch) :
    (calculateStorageMetrics pb epochsPerDay epochsPerMonth withCDN cap
      m).persistenceDaysLeft =
      JSNum.fin
        ((((pb.currentLockupAllowance : ℤ) - (pb.currentLockupUsed : ℤ) : ℤ) : ℚ) /
          ((epochsPerDay * pb.costsPerEpoch : ℕ) : ℚ)) := by
  have hne : ((epochsPerDay * pb.costsPerEpoch : ℕ) : ℚ) ≠ 0 :=
    Nat.cast_ne_zero.mpr (Nat.mul_pos hE hr).ne'
  simp [calculateStorageMetrics, lockupPerDay, jsDiv, hne]
  intro h0
  exact absurd (h0 (by omega)) (by omega)

/-- Claim C4, witness: the scenario snapshot (lockup allowance 1000,
lockup used 100, required rate 10, 5 epochs per day) gives a per-day
lockup of 50 and a runway of exactly 18 days. -/
theorem persistenceDaysLeft_formula_witness :
    lockupPerDay 5 pbScenario.costsPerEpoch = 50 ∧
    (calculateStorageMetrics pbScenario 5 86400 false 1000
      10).persistenceDaysLeft = JSNum.fin 18 := by
  refine ⟨by norm_num [lockupPerDay, pbScenario], ?_⟩
  have h := persistenceDaysLeft_formula pbScenario 5 86400 false 1000 10
    (by norm_num) (by norm_num [pbScenario])
  rw [h]
  norm_num [pbScenario]

/-- Claim C5: both sufficiency comparisons are non-strict: the rate flag
holds exactly when the current rate allowance is at least the required
rate, and on a finite runway the lockup flag holds exactly when the
runway is at least the threshold. -/
theorem sufficiency_nonstrict (pb : PandoraBalanceData)
    (epochsPerDay epochsPerMonth : ℕ) (withCDN : Bool) (cap m : ℕ) :
    ((calculateStorageMetrics pb epochsPerDay epochsPerMonth withCDN cap
        m).isRateSufficient = true ↔
      pb.costsPerEpoch ≤ pb.currentRateAllowance) ∧
    (∀ q : ℚ,
      (calculateStorageMetrics pb epochsPerDay epochsPerMonth withCDN cap
        m).persistenceDaysLeft = JSNum.fin q →
      ((calculateStorageMetrics pb epochsPerDay epochsPerMonth withCDN cap
          m).isLockupSufficient = true ↔ (m : ℚ) ≤ q)) := by
  constructor
  · simp [calculateStorageMetrics]
  · intro q hq
    have : (calculateStorageMetrics pb epochsPerDay epochsPerMonth withCDN cap
        m).isLockupSufficient =
        ((calculateStorageMetrics pb epochsPerDay epochsPerMonth withCDN cap
          m).persistenceDaysLeft).jsGe (m : ℤ) := rfl
    rw [this, hq]
    simp [JSNum.jsGe]

/-- Claim C5, witness: with the rate allowance exactly equal to the
required rate the rate flag holds; the 18-day scenario runway is
sufficient against a 10-day threshold and insufficient against a 20-day
threshold. -/
theorem sufficiency_nonstrict_witness :
    (calculateStorageMetrics pbScenario 5 86400 false 1000
      10).isRateSufficient = true ∧
    (calculateStorageMetrics pbScenario 5 86400 false 1000
      10).isLockupSufficient = true ∧
    (calculateStorageMetrics pbScenario 5 86400 false 1000
      20).isLockupSufficient = false := by
  have hdays10 : (calculateStorageMetrics pbScenario 5 86400 false 1000
      10).persistenceDaysLeft = JSNum.fin 18 := by
    simp [calculateStorageMetrics, lockupPerDay, jsDiv, pbScenario]
    norm_num
  have hdays20 : (calculateStorageMetrics pbScenario 5 86400 false 1000
      20).persistenceDaysLeft = JSNum.fin 18 := by
    simp [calculateStorageMetrics, lockupPerDay, jsDiv, pbScenario]
    norm_num
  refine ⟨(sufficiency_nonstrict pbScenario 5 86400 false 1000 10).1.mpr
      (by norm_num [pbScenario]),
    ((sufficiency_nonstrict pbScenario 5 86400 false 1000 10).2 18 hdays10).mpr
      (by norm_num), ?_⟩
  have h20 := (sufficiency_nonstrict pbScenario 5 86400 false 1000 20).2 18 hdays20
  norm_num at h20
  exact h20

/-- Claim C7: with the overall flag equal to the conjunction of the two
sufficiency flags and nonzero wallet balances, the four remediation
branches are mutually exclusive and exhaustive over the flag pairs:
exactly one branch applies to each pair, and the lockup-increase and
rate-increase cards never render together. -/
theorem actionSection_branches (b : BalancesUI)
    (hS : b.isSufficient = (b.isRateSufficient && b.isLockupSufficient))
    (hf : b.filBalance ≠ 0) (hu : b.usdfcBalance ≠ 0) :
    (b.isRateSufficient = true → b.isLockupSufficient = true →
      ActionSection b = .sufficientCard) ∧
    (b.isRateSufficient = true → b.isLockupSufficient = false →
      ActionSection b = .remediation
        (LockupIncreaseAction b.totalLockupNeeded b.depositNeeded b.rateNeeded)
        none none) ∧
    (b.isRateSufficient = false → b.isLockupSufficient = true →
      ActionSection b = .remediation none
        (RateIncreaseAction b.currentLockupAllowance b.rateNeeded) none) ∧
    (b.isRateSufficient = false → b.isLockupSufficient = false →
      ActionSection b = .remediation none none
        (some ⟨b.totalLockupNeeded, b.rateNeeded, b.depositNeeded⟩)) ∧
    (∀ L R B, ActionSection b = .remediation L R B → L = none ∨ R = none) := by
  refine ⟨?_, ?_, ?_, ?_, ?_⟩ <;>
    first
    | (intro hr hl; simp [ActionSection, hS, hr, hl, hf, hu])
    | (intro L R B hLRB
       cases hr : b.isRateSufficient <;> cases hl : b.isLockupSufficient <;>
         simp [ActionSection, hS, hr, hl, hf, hu] at hLRB <;>
         simp [hLRB.1, hLRB.2.1])

/-- A balances record with both sufficiency flags false, nonzero wallet
balances and nonzero remediation amounts. -/
def bBothInsufficient : BalancesUI :=
  { isSufficient := false, isRateSufficient := false
    isLockupSufficient := false, filBalance := 1, usdfcBalance := 2
    totalLockupNeeded := 500, depositNeeded := 400, rateNeeded := 50
    currentLockupAllowance := 1000 }

/-- Claim C7, witness: with both flags false only the both-insufficient
card renders, carrying the full deposit and the needed rate. -/
theorem actionSection_branches_witness :
    ActionSection bBothInsufficient =
      .remediation none none (some ⟨500, 50, 400⟩) :=
  (actionSection_branches bBothInsufficient rfl
    (by norm_num [bBothInsufficient]) (by norm_num [bBothInsufficient])).2.2.2.1
    rfl rfl

/-- Claim C6, counterexample: on a snapshot whose current rate allowance
(100) strictly exceeds the required rate (50), the lockup-increase branch
fires and the payment submitted carries `epochRateAllowance = 50`, the
required rate, not the currently active rate allowance 100. -/
theorem lockup_branch_rate_param_not_current :
    (calculateStorageMetrics pbRateOk 5 86400 false 1000 10).isRateSufficient = true ∧
    (calculateStorageMetrics pbRateOk 5 86400 false 1000 10).isLockupSufficient = false ∧
    ActionSection
        (toBalancesUI (calculateStorageMetrics pbRateOk 5 86400 false 1000 10) 1 2) =
      .remediation (some ⟨500, 50, 400⟩) none none ∧
    pbRateOk.currentRateAllowance = 100 ∧
    (⟨500, 50, 400⟩ : PaymentParams).epochRateAllowance ≠ pbRateOk.currentRateAllowance := by
  refine ⟨?_, ?_, ?_, rfl, by norm_num [pbRateOk]⟩
  · simp [calculateStorageMetrics, pbRateOk]
  · simp [calculateStorageMetrics, lockupPerDay, jsDiv, JSNum.jsGe, pbRateOk]
    norm_num
  · simp [ActionSection, toBalancesUI, LockupIncreaseAction, calculateStorageMetrics,
      lockupPerDay, jsDiv, JSNum.jsGe, pbRateOk]
    norm_num

/-- Claim C6, amended: in the rate-sufficient, lockup-insufficient branch
with nonzero amounts, the submitted payment consists of the deposit
amount, the extended lockup allowance, and a rate-allowance parameter
equal to the required rate `rateNeeded` (not necessarily the currently
active rate allowance; the two coincide exactly when the current rate
allowance equals the required rate). -/
theorem lockup_branch_payment (b : BalancesUI)
    (hS : b.isSufficient = (b.isRateSufficient && b.isLockupSufficient))
    (hf : b.filBalance ≠ 0) (hu : b.usdfcBalance ≠ 0)
    (hr : b.isRateSufficient = true) (hl : b.isLockupSufficient = false)
    (ht : b.totalLockupNeeded ≠ 0) (hd : b.depositNeeded ≠ 0)
    (hn : b.rateNeeded ≠ 0) :
    ActionSection b =
      .remediation (some ⟨b.totalLockupNeeded, b.rateNeeded, b.depositNeeded⟩)
        none none := by
  simp [ActionSection, LockupIncreaseAction, hS, hr, hl, hf, hu, ht, hd, hn]

/-- Claim C6, witness for the amended theorem: the lockup-insufficient
snapshot with current rate allowance 100 and required rate 50 submits
lockup 500, rate 50 and deposit 400. -/
theorem lockup_branch_payment_witness :
    ActionSection
        (toBalancesUI (calculateStorageMetrics pbRateOk 5 86400 false 1000 10) 1 2) =
      .remediation (some ⟨500, 50, 400⟩) none none := by
  have hr : (calculateStorageMetrics pbRateOk 5 86400 false 1000 10).isRateSufficient = true := by
    simp [calculateStorageMetrics, pbRateOk]
  have hl : (calculateStorageMetrics pbRateOk 5 86400 false 1000 10).isLockupSufficient = false := by
    simp [calculateStorageMetrics, lockupPerDay, jsDiv, JSNum.jsGe, pbRateOk]
    norm_num
  exact lockup_branch_payment
    (toBalancesUI (calculateStorageMetrics pbRateOk 5 86400 false 1000 10) 1 2)
    (by simp [toBalancesUI, calculateStorageMetrics])
    (by norm_num [toBalancesUI]) (by norm_num [toBalancesUI])
    hr hl (by norm_num [toBalancesUI, calculateStorageMetrics, pbRateOk])
    (by norm_num [toBalancesUI, calculateStorageMetrics, pbRateOk])
    (by norm_num [toBalancesUI, calculateStorageMetrics, pbRateOk])

/-- Claim C10: in an insufficient state the remediation action is
silently suppressed whenever any of its required amounts is zero: the
lockup-increase card is null when `totalLockupNeeded`, `depositNeeded`
or `rateNeeded` is zero, the rate-increase card is null when
`currentLockupAllowance` or `rateNeeded` is zero, and in either case the
section renders no payment action at all even though the flags call for
remediation. -/
theorem remediation_suppressed_on_zero :
    (∀ t d r : ℕ, t = 0 ∨ d = 0 ∨ r = 0 → LockupIncreaseAction t d r = none) ∧
    (∀ l r : ℕ, l = 0 ∨ r = 0 → RateIncreaseAction l r = none) ∧
    (∀ b : BalancesUI, b.isSufficient = false →
      b.filBalance ≠ 0 → b.usdfcBalance ≠ 0 →
      b.isRateSufficient = true → b.isLockupSufficient = false →
      b.totalLockupNeeded = 0 ∨ b.depositNeeded = 0 ∨ b.rateNeeded = 0 →
      ActionSection b = .remediation none none none) ∧
    (∀ b : BalancesUI, b.isSufficient = false →
      b.filBalance ≠ 0 → b.usdfcBalance ≠ 0 →
      b.isRateSufficient = false → b.isLockupSufficient = true →
      b.currentLockupAllowance = 0 ∨ b.rateNeeded = 0 →
      ActionSection b = .remediation none none none) := by
  refine ⟨fun t d r h => by simp [LockupIncreaseAction, h],
    fun l r h => by simp [RateIncreaseAction, h], ?_, ?_⟩ <;>
    intro b hS hf hu hr hl hz <;>
    simp [ActionSection, LockupIncreaseAction, RateIncreaseAction,
      hS, hf, hu, hr, hl, hz]

/-- Claim C10, witness: a rate-sufficient, lockup-insufficient state with
a zero deposit amount renders no remediation card at all. -/
theorem remediation_suppressed_on_zero_witness :
    LockupIncreaseAction 500 0 50 = none ∧
    RateIncreaseAction 0 50 = none ∧
    ActionSection
      { isSufficient := false, isRateSufficient := true
        isLockupSufficient := false, filBalance := 1, usdfcBalance := 2
        totalLockupNeeded := 500, depositNeeded := 0, rateNeeded := 50
        currentLockupAllowance := 1000 } = .remediation none none none :=
  ⟨remediation_suppressed_on_zero.1 500 0 50 (Or.inr (Or.inl rfl)),
    remediation_suppressed_on_zero.2.1 0 50 (Or.inl rfl),
    remediation_suppressed_on_zero.2.2.1 _ rfl (by norm_num) (by norm_num)
      rfl rfl (Or.inr (Or.inl rfl))⟩

/-- Claim C8: the usage estimate is zero unless both the used rate and
the needed rate allowance are strictly positive (in particular whenever
the needed rate allowance is zero), and when both are positive the bytes
estimate is the truncating proportional division. -/
theorem calculateCurrentStorageUsage_spec (pb : PandoraBalanceData) (cap : ℕ) :
    ((pb.currentRateUsed = 0 ∨ pb.rateAllowanceNeeded = 0) →
      (calculateCurrentStorageUsage pb cap).1 = 0 ∧
        (calculateCurrentStorageUsage pb cap).2 = 0) ∧
    (0 < pb.currentRateUsed → 0 < pb.rateAllowanceNeeded →
      (calculateCurrentStorageUsage pb cap).1 =
        pb.currentRateUsed * cap / pb.rateAllowanceNeeded) := by
  constructor
  · intro h
    have : ¬ (0 < pb.currentRateUsed ∧ 0 < pb.rateAllowanceNeeded) := by omega
    simp [calculateCurrentStorageUsage, this]
  · intro h1 h2
    simp [calculateCurrentStorageUsage, h1, h2]

/-- Claim C8, witness: needed rate allowance zero forces a zero estimate
even with a positive used rate, and used 3 of needed 4 over capacity 1000
gives 750 bytes. -/
theorem calculateCurrentStorageUsage_spec_witness :
    (calculateCurrentStorageUsage
      { currentRateAllowance := 0, currentRateUsed := 7
        currentLockupAllowance := 0, currentLockupUsed := 0
        rateAllowanceNeeded := 0, lockupAllowanceNeeded := 0
        depositAmountNeeded := 0, costsPerEpoch := 0 } 1000).1 = 0 ∧
    (calculateCurrentStorageUsage
      { currentRateAllowance := 0, currentRateUsed := 3
        currentLockupAllowance := 0, currentLockupUsed := 0
        rateAllowanceNeeded := 4, lockupAllowanceNeeded := 0
        depositAmountNeeded := 0, costsPerEpoch := 0 } 1000).1 = 750 :=
  ⟨((calculateCurrentStorageUsage_spec _ 1000).1 (Or.inr rfl)).1, by
    rw [(calculateCurrentStorageUsage_spec _ 1000).2 (by norm_num) (by norm_num)]
    norm_num⟩

/-- Claim C9: the capacity-from-rate inverse is monotonically
non-decreasing in its rate-allowance input, for either pricing tier and
any epochs-per-month constant. -/
theorem calculateRateAllowanceGB_mono (withCDN : Bool) (epochsPerMonth : ℕ)
    (a b : ℕ) (h : a ≤ b) :
    calculateRateAllowanceGB withCDN epochsPerMonth a ≤
      calculateRateAllowanceGB withCDN epochsPerMonth b := by
  unfold calculateRateAllowanceGB
  have h1 : a * epochsPerMonth * TiB / getPricePerTBPerMonth withCDN ≤
      b * epochsPerMonth * TiB / getPricePerTBPerMonth withCDN :=
    Nat.div_le_div_right (Nat.mul_le_mul_right _ (Nat.mul_le_mul_right _ h))
  have hg : (0 : ℚ) < (GiB : ℕ) := by norm_num [GiB]
  exact div_le_div_of_nonneg_right (by exact_mod_cast h1) hg.le

/-- Claim C9, witness: monotonicity at the concrete pair 1 ≤ 2 on the
base tier. -/
theorem calculateRateAllowanceGB_mono_witness :
    calculateRateAllowanceGB false 86400 1 ≤ calculateRateAllowanceGB false 86400 2 :=
  calculateRateAllowanceGB_mono false 86400 1 2 (by norm_num)

end FILDOS
